import Mathlib

/-!
Shallow embedding of the `docker_red` management backend (current revision under
`src/src/`), covering the container lifecycle repository
(`src/infrastructure/repositories/container_repository.py`), its helpers
(`src/infrastructure/docker_helper.py`, `src/infrastructure/git_helper.py`) and the
token services (`src/application/services/token/`).

Modelling conventions:
- The external Docker runtime, the git fetcher and the database are modelled as
  explicit values: the runtime is a list of container records each carrying
  outcome oracles (`startFails`, `stopFails`, ...) for its fallible methods, and
  the ledger (the `containers` table) is a list of rows.  Exception *kinds* are
  modelled by the inductive `DomErr`; exception message strings are elided since
  no behaviour of the program branches on them.
- Python numeric values are modelled as `Nat`/`Rat`; Python float division by
  1024 and the `.2f` rendering are modelled over `Rat` with round-half-to-even.
- `raise` / `try` / `except` become `Except` values, mirroring the handler
  structure of each method.
-/

namespace DockerRed

/-! ### Python-level helpers -/

/-- Round-half-to-even of a rational to an integer, as Python `round` does on an
exactly-representable value. -/
def roundHalfEven (x : ℚ) : ℤ :=
  let f := x.floor
  let r := x - (f : ℚ)
  if r < 1 / 2 then f
  else if 1 / 2 < r then f + 1
  else if f % 2 = 0 then f else f + 1

/-- Python `round(x, 2)` on a numeric value: round half-to-even at the second
decimal place. -/
def pyRound2 (q : ℚ) : ℚ := (roundHalfEven (100 * q) : ℚ) / 100

/-- Python `str.rstrip('/')`: remove every trailing `'/'` character. -/
def rstripSlash (s : String) : String :=
  String.mk ((s.data.reverse.dropWhile fun c => c == '/').reverse)

/-- Python `os.path.basename`: the characters after the last `'/'` (empty when the
string ends with `'/'`). -/
def basename (s : String) : String :=
  String.mk ((s.data.reverse.takeWhile fun c => c != '/').reverse)

/-- Python `str.replace(".git", "")` on the character list: remove every
(left-to-right, non-overlapping) occurrence of the substring `".git"`. -/
def replaceGitChars : List Char → List Char
  | '.' :: 'g' :: 'i' :: 't' :: rest => replaceGitChars rest
  | c :: cs => c :: replaceGitChars cs
  | [] => []

/-- Python `str.replace(".git", "")` on strings. -/
def stripGit (s : String) : String := String.mk (replaceGitChars s.data)

/-- The deterministic directory/tag name derived from a repository URL:
`os.path.basename(github_url.rstrip('/').replace('.git', ''))`
(container_repository.py line 218). -/
def derivedName (url : String) : String := basename (stripGit (rstripSlash url))

/-- The local clone directory `f"./repos/{...}"` of container_repository.py
line 218. -/
def repoDir (url : String) : String := "./repos/" ++ derivedName url

/-- The image tag `os.path.basename(repo_dir)` computed by
`DockerHelper.build_container` (docker_helper.py line 76). -/
def buildImageTag (url : String) : String := basename (repoDir url)

/-! ### Data model -/

/-- Exception kinds raised by the container repository layer.  Message strings
are elided.  `containerNotFound` is `ContainerNotFoundException`,
`dockerAPIException` is `DockerAPIException`, `bareException` is a plain Python
`Exception` (raised by `restart_container`'s database check), and
`rawDockerError` is an unwrapped exception escaping a delegated runtime call
(`container.restart()` is not guarded by any `try`). -/
inductive DomErr where
  | containerNotFound
  | dockerAPIException
  | bareException
  | rawDockerError
deriving DecidableEq, Repr

/-- One entry of the `stats["networks"]` mapping (per network interface), with
the `rx_*`/`tx_*` counters read via `.get(..., 0)`. -/
structure NetIface where
  rx_bytes : ℕ
  rx_packets : ℕ
  tx_bytes : ℕ
  tx_packets : ℕ
deriving DecidableEq, Repr

/-- The raw stats snapshot returned by `container.stats(stream=False)`,
flattened through the defaulting `.get` chains of `get_container_stats`
(missing keys read as `0` / empty). -/
structure RawStats where
  cpu_total_usage : ℕ
  system_cpu_usage : ℕ
  memory_usage : ℕ
  memory_limit : ℕ
  networks : List NetIface
deriving DecidableEq, Repr

/-- A container object held by the Docker runtime.  The `...Fails` fields are
outcome oracles for its fallible methods (`start()`, `stop()`, `restart()`,
`remove(force=...)`, `stats(stream=False)`); `rawStats` is the snapshot that a
successful `stats` call returns.  `tags` is `c.image.tags`. -/
structure RTContainer where
  id : String
  name : String
  status : String
  tags : List String
  startFails : Bool
  stopFails : Bool
  restartFails : Bool
  removeFails : Bool
  statsFails : Bool
  rawStats : RawStats
deriving DecidableEq, Repr

/-- The Docker runtime as seen through `DockerHelper`: its container list and an
outcome oracle for `client.containers.list(all=True)`. -/
structure Runtime where
  containers : List RTContainer
  listFails : Bool
deriving DecidableEq, Repr

/-- A row of the `containers` ledger table (`INSERT INTO containers (id, name,
image)`). -/
structure LedgerRow where
  id : String
  name : String
  image : String
deriving DecidableEq, Repr

/-- The `Container` domain entity (`src/domain/entities.py`). -/
structure Container where
  id : String
  name : String
  status : String
  image : String
deriving DecidableEq, Repr

/-! ### Database helpers of `DockerContainerRepository` -/

/-- `is_container_in_db`: `SELECT id FROM containers WHERE id = $1` row
existence (container_repository.py lines 326-340). -/
def is_container_in_db (db : List LedgerRow) (cid : String) : Bool :=
  db.any fun r => r.id == cid

/-- `save_container_to_db`: `INSERT INTO containers (id, name, image)`
(container_repository.py lines 310-324). -/
def save_container_to_db (db : List LedgerRow) (row : LedgerRow) : List LedgerRow :=
  db ++ [row]

/-- `delete_container_from_db`: `DELETE FROM containers WHERE id = $1`
(container_repository.py lines 342-352). -/
def delete_container_from_db (db : List LedgerRow) (cid : String) : List LedgerRow :=
  db.filter fun r => r.id != cid

/-- Modelled from the spec: the Container Runtime Client lookup primitive
`getById(id) -> RuntimeContainer|None`.  `DockerContainerRepository` calls
`self.docker_helper.get_container_by_id(...)`, but `DockerHelper`
(docker_helper.py) defines only `get_container_by_name`, which returns the
container, or `None` on `NotFound`; the spec's collaborator contract for the
runtime client specifies `getById(id) -> RuntimeContainer|None` with the same
shape, which is what this definition models. -/
def get_container_by_id (rt : Runtime) (cid : String) : Option RTContainer :=
  rt.containers.find? fun c => c.id == cid

/-! ### `DockerContainerRepository.list_containers` (lines 29-62) -/

/-- The snapshot entity built inside the `list_containers` loop: runtime
`name`/`status` and first image tag, with the `"No tag available"` fallback.
In this model every runtime container carries `name`/`status` attributes, so
the `getattr` defaults of lines 47-48 never fire. -/
def snapshotOf (c : RTContainer) : Container :=
  { id := c.id, name := c.name, status := c.status,
    image := c.tags.headD "No tag available" }

/-- The `for c in containers` loop of `list_containers`: skip (`continue`) any
container whose id is not in the ledger, otherwise append its snapshot. -/
def listLoop (db : List LedgerRow) : List RTContainer → List Container
  | [] => []
  | c :: cs =>
    if is_container_in_db db c.id then snapshotOf c :: listLoop db cs
    else listLoop db cs

/-- `list_containers`: enumerate the runtime containers and keep those present
in the ledger; a `DockerAPIException` from the runtime listing is re-raised. -/
def list_containers (db : List LedgerRow) (rt : Runtime) : Except DomErr (List Container) :=
  if rt.listFails then .error .dockerAPIException
  else .ok (listLoop db rt.containers)

/-! ### `start_container` / `stop_container` / `restart_container` (lines 64-138) -/

/-- `start_container`: database check (raising `ContainerNotFoundException`),
runtime lookup (raising `ContainerNotFoundException` on `None`), then
`container.start()` wrapped into `DockerAPIException` on any exception. -/
def start_container (db : List LedgerRow) (rt : Runtime) (cid : String) : Except DomErr Unit :=
  if is_container_in_db db cid = false then .error .containerNotFound
  else match get_container_by_id rt cid with
    | none => .error .containerNotFound
    | some c => if c.startFails then .error .dockerAPIException else .ok ()

/-- `stop_container`: same gate as `start_container`, then `container.stop()`
wrapped into `DockerAPIException` on any exception. -/
def stop_container (db : List LedgerRow) (rt : Runtime) (cid : String) : Except DomErr Unit :=
  if is_container_in_db db cid = false then .error .containerNotFound
  else match get_container_by_id rt cid with
    | none => .error .containerNotFound
    | some c => if c.stopFails then .error .dockerAPIException else .ok ()

/-- `restart_container` (lines 122-138): the database miss raises a *plain*
`Exception` (line 134), the runtime miss raises `ContainerNotFoundException`,
and `container.restart()` is delegated with *no* surrounding `try`, so a
failure there escapes unwrapped. -/
def restart_container (db : List LedgerRow) (rt : Runtime) (cid : String) : Except DomErr Unit :=
  if is_container_in_db db cid = false then .error .bareException
  else match get_container_by_id rt cid with
    | none => .error .containerNotFound
    | some c => if c.restartFails then .error .rawDockerError else .ok ()

/-! ### `delete_container` (lines 170-205) -/

/-- `delete_container`: database check, runtime lookup, best-effort `stop()`
when the container is `running` (its failure wrapped into `DockerAPIException`
aborts the deletion), `remove(force=force)` (failure wrapped into
`DockerAPIException`), and only then `delete_container_from_db`.  Returns the
call outcome together with the resulting ledger.  The `force` flag is forwarded
to `remove`; in this model the remove outcome oracle already accounts for it. -/
def delete_container (db : List LedgerRow) (rt : Runtime) (cid : String) (force : Bool) :
    Except DomErr Unit × List LedgerRow :=
  if is_container_in_db db cid = false then (.error .containerNotFound, db)
  else match get_container_by_id rt cid with
    | none => (.error .containerNotFound, db)
    | some c =>
      let removeStep : Except DomErr Unit × List LedgerRow :=
        if c.removeFails then (.error .dockerAPIException, db)
        else (.ok (), delete_container_from_db db cid)
      if c.status == "running" then
        if c.stopFails then (.error .dockerAPIException, db) else removeStep
      else removeStep

/-! ### `clone_and_run_container` (lines 207-235) -/

/-- Outcome oracles for the external steps of the clone-and-run pipeline, plus
the container object a successful `run_container` returns.  `saveFails` covers
a database failure of the final `INSERT`. -/
structure PipelineEnv where
  ensureDirFails : Bool
  cloneFails : Bool
  buildFails : Bool
  runFails : Bool
  runResult : RTContainer
  saveFails : Bool
deriving DecidableEq, Repr

/-- `DockerHelper.build_container` (docker_helper.py lines 61-83): on success
returns the image tag `os.path.basename(repo_dir)`; a `BuildError` is raised as
`DockerAPIException`. -/
def build_container (repo_dir : String) (dockerfile_dir : String) (buildFails : Bool) :
    Except DomErr String :=
  if buildFails then .error .dockerAPIException else .ok (basename repo_dir)

/-- `clone_and_run_container`: compute the clone directory from the URL, then —
inside one `try` whose `except Exception` re-raises everything as
`DockerAPIException` — ensure `./repos` exists, clone-or-pull, build, run, and
finally insert the new container row into the ledger.  The result is the call
outcome together with the resulting ledger.  `dockerfile_dir` only shapes the
build path inside the runtime, which the build outcome oracle absorbs. -/
def clone_and_run_container (env : PipelineEnv) (db : List LedgerRow)
    (github_url dockerfile_dir : String) : Except DomErr Unit × List LedgerRow :=
  let repo_dir := "./repos/" ++ basename (stripGit (rstripSlash github_url))
  if env.ensureDirFails then (.error .dockerAPIException, db)
  else if env.cloneFails then (.error .dockerAPIException, db)
  else match build_container repo_dir dockerfile_dir env.buildFails with
    | .error _ => (.error .dockerAPIException, db)
    | .ok image_tag =>
      if env.runFails then (.error .dockerAPIException, db)
      else if env.saveFails then (.error .dockerAPIException, db)
      else (.ok (),
        save_container_to_db db
          { id := env.runResult.id, name := env.runResult.name, image := image_tag })

/-! ### `get_container_stats` (lines 237-308) -/

/-- The value bound to `cpu_percentage`: a number when `system_cpu_usage > 0`,
otherwise the Python string `"No data available"`. -/
inductive CpuValue where
  | num (q : ℚ)
  | noDataStr
deriving DecidableEq, Repr

/-- Line 263-265: `(cpu_usage / system_cpu_usage) * 100 if system_cpu_usage > 0
else "No data available"`. -/
def cpu_percentage_value (total system : ℕ) : CpuValue :=
  if 0 < system then .num (((total : ℚ) / (system : ℚ)) * 100) else .noDataStr

/-- Line 297: `round(cpu_percentage, 2)`.  Rounding a number succeeds; Python
`round` applied to the sentinel *string* raises `TypeError` (modelled as
`none`). -/
def pyRoundCpu : CpuValue → Option ℚ
  | .num q => some (pyRound2 q)
  | .noDataStr => none

/-- The `format_memory` local helper (lines 270-274) / `format_bytes` local
helper (lines 279-283): walk the unit list, returning the value rendered at two
decimal places with the first unit under which it falls below 1024; falling off
the end of the loop returns Python `None` (modelled as `none`). -/
def format_scale : ℚ → List String → Option (ℚ × String)
  | _, [] => none
  | v, u :: us => if v < 1024 then some (pyRound2 v, u) else format_scale (v / 1024) us

/-- The `format_memory` local function of `get_container_stats`. -/
def format_memory (v : ℚ) : Option (ℚ × String) :=
  format_scale v ["B", "KB", "MB", "GB", "TB"]

/-- The `format_bytes` local function of `get_container_stats` (textually the
same body as `format_memory`). -/
def format_bytes (v : ℚ) : Option (ℚ × String) :=
  format_scale v ["B", "KB", "MB", "GB", "TB"]

/-- Python `sum(...)` over a generator of naturals: a left fold from `0`. -/
def pySum (l : List ℕ) : ℕ := l.foldl (· + ·) 0

/-- One side (`received` or `transmitted`) of the `network_io` dict. -/
structure NetSide where
  bytes : Option (ℚ × String)
  packets : ℕ
deriving DecidableEq, Repr

/-- The `network_io` dict of `get_container_stats`. -/
structure NetStats where
  received : NetSide
  transmitted : NetSide
deriving DecidableEq, Repr

/-- Lines 285-294: sum the per-interface `rx_*`/`tx_*` counters over
`networks.values()` and format the byte sums with `format_bytes`. -/
def network_io_value (networks : List NetIface) : NetStats :=
  { received :=
      { bytes := format_bytes ((pySum (networks.map fun i => i.rx_bytes) : ℕ) : ℚ),
        packets := pySum (networks.map fun i => i.rx_packets) },
    transmitted :=
      { bytes := format_bytes ((pySum (networks.map fun i => i.tx_bytes) : ℕ) : ℚ),
        packets := pySum (networks.map fun i => i.tx_packets) } }

/-- The dict returned by `get_container_stats` (lines 296-301). -/
structure ContainerStats where
  cpu_usage_percent : ℚ
  memory_usage : Option (ℚ × String)
  memory_limit : Option (ℚ × String)
  network_io : NetStats
deriving DecidableEq, Repr

/-- `get_container_stats`: everything runs inside one `try`; the
`ContainerNotFoundException` raised on a failed runtime lookup (line 253), a
failing `stats` call, and the `TypeError` from `round` on the sentinel string
are all caught by `except Exception` (lines 306-308) and re-raised as
`DockerAPIException`.  No database check occurs anywhere in this method. -/
def get_container_stats (rt : Runtime) (cid : String) : Except DomErr ContainerStats :=
  match get_container_by_id rt cid with
  | none => .error .dockerAPIException
  | some c =>
    if c.statsFails then .error .dockerAPIException
    else
      let st := c.rawStats
      match pyRoundCpu (cpu_percentage_value st.cpu_total_usage st.system_cpu_usage) with
      | none => .error .dockerAPIException
      | some p =>
        .ok { cpu_usage_percent := p,
              memory_usage := format_memory ((st.memory_usage : ℕ) : ℚ),
              memory_limit := format_memory ((st.memory_limit : ℕ) : ℚ),
              network_io := network_io_value st.networks }

/-! ### Token services (`src/application/services/token/`) -/

/-- The decoded JWT payload: `sub`, the optional `type` kind marker, and the
absolute expiry timestamp `exp` (seconds). -/
structure TokenPayload where
  sub : Option String
  type : Option String
  exp : ℕ
deriving DecidableEq, Repr

/-- Python `timedelta(minutes=m)` in seconds. -/
def tdMinutes (m : ℕ) : ℕ := m * 60

/-- Python `timedelta(days=d)` in seconds. -/
def tdDays (d : ℕ) : ℕ := d * 24 * 60 * 60

/-- `TokenCreator.create_token` (token_creator.py lines 18-56) with
`data={"sub": sub}` as at every call site: `exp = utcnow() + (expires_delta or
default)` with a 7-day default and a `type: "refresh"` marker for refresh
tokens, and a 15-minute default and no kind marker otherwise.  The signing step
is abstracted away: the token is identified with its payload. -/
def create_token (now : ℕ) (sub : String) (token_type : String) (expires_delta : Option ℕ) :
    TokenPayload :=
  if token_type == "refresh" then
    { sub := some sub, type := some "refresh", exp := now + expires_delta.getD (tdDays 7) }
  else
    { sub := some sub, type := none, exp := now + expires_delta.getD (tdMinutes 15) }

/-- The outcome of `jwt.decode` on a presented token, abstracting the
cryptographic verification: expired signature, invalid token, or a decoded
payload. -/
inductive DecodeResult where
  | expired
  | invalid
  | valid (p : TokenPayload)
deriving DecidableEq, Repr

/-- A FastAPI `HTTPException` with its status code and detail string. -/
structure HttpError where
  status : ℕ
  detail : String
deriving DecidableEq, Repr

/-- `TokenValidator.validate_token` (token_validator.py lines 16-38):
`ExpiredSignatureError` becomes 401 `"Token has expired"`, `InvalidTokenError`
becomes 401 `"Invalid token"`, otherwise the payload is returned. -/
def validate_token : DecodeResult → Except HttpError TokenPayload
  | .expired => .error ⟨401, "Token has expired"⟩
  | .invalid => .error ⟨401, "Invalid token"⟩
  | .valid p => .ok p

/-- `RefreshToken.__call__` (token_refresher.py lines 18-63): validate the
refresh token, require the `"refresh"` kind marker, require a non-empty
subject, require that the user still exists, and issue a fresh access token
with the configured TTL.  `users` is the credential store (usernames),
`accessExpireMinutes` is `settings.access_token_expire_minutes`.  The falsy
check `if not payload` is subsumed by the kind check (an empty payload has no
`"refresh"` marker), and `if not username` covers both a missing and an empty
`sub`. -/
def refresh_token_call (users : List String) (now : ℕ) (accessExpireMinutes : ℕ)
    (d : DecodeResult) : Except HttpError TokenPayload :=
  match validate_token d with
  | .error e => .error e
  | .ok payload =>
    if payload.type != some "refresh" then .error ⟨401, "Invalid or expired refresh token"⟩
    else match payload.sub with
      | none => .error ⟨401, "Invalid token payload"⟩
      | some username =>
        if username == "" then .error ⟨401, "Invalid token payload"⟩
        else if users.contains username then
          .ok (create_token now username "access" (some (tdMinutes accessExpireMinutes)))
        else .error ⟨401, "User not found"⟩

/-! ### Concrete test fixtures -/

/-- A stats snapshot with a positive host CPU denominator. -/
def statsGood : RawStats :=
  { cpu_total_usage := 50, system_cpu_usage := 100, memory_usage := 2048,
    memory_limit := 4096, networks := [⟨100, 5, 200, 7⟩, ⟨50, 3, 25, 2⟩] }

/-- A stats snapshot whose host CPU denominator is zero. -/
def statsZero : RawStats := { statsGood with system_cpu_usage := 0 }

/-- A well-behaved managed container. -/
def ctAlpha : RTContainer :=
  { id := "alpha", name := "web", status := "exited", tags := ["img:latest"],
    startFails := false, stopFails := false, restartFails := false,
    removeFails := false, statsFails := false, rawStats := statsGood }

/-- A runtime container that was never created through the pipeline. -/
def ctGamma : RTContainer := { ctAlpha with id := "gamma", name := "stray" }

/-- A container whose stats snapshot has a zero host CPU denominator. -/
def ctZed : RTContainer := { ctAlpha with id := "zed", rawStats := statsZero }

/-- A running container whose `stop()` call fails. -/
def ctRunStuck : RTContainer := { ctAlpha with id := "run1", status := "running", stopFails := true }

/-- A container whose `restart()` call fails. -/
def ctRestartBad : RTContainer := { ctAlpha with id := "rbad", restartFails := true }

/-- A stopped container that deletes cleanly. -/
def ctDel : RTContainer := { ctAlpha with id := "del1" }

/-- An empty ledger. -/
def dbEmpty : List LedgerRow := []

/-- A ledger owning only `alpha`. -/
def dbW : List LedgerRow := [{ id := "alpha", name := "web", image := "img:latest" }]

/-- A ledger owning only `run1`. -/
def dbRun : List LedgerRow := [{ id := "run1", name := "web", image := "img" }]

/-- A ledger owning only `rbad`. -/
def dbR : List LedgerRow := [{ id := "rbad", name := "web", image := "img" }]

/-- A ledger owning only `del1`. -/
def dbDel : List LedgerRow := [{ id := "del1", name := "web", image := "img" }]

/-- A runtime with one managed and one unmanaged container. -/
def rtW : Runtime := { containers := [ctAlpha, ctGamma], listFails := false }

/-- A runtime holding only the zero-denominator container. -/
def rtZ : Runtime := { containers := [ctZed], listFails := false }

/-- A runtime holding only the stuck running container. -/
def rtRun : Runtime := { containers := [ctRunStuck], listFails := false }

/-- A runtime holding only the restart-failing container. -/
def rtR : Runtime := { containers := [ctRestartBad], listFails := false }

/-- A runtime holding only the cleanly deletable container. -/
def rtDel : Runtime := { containers := [ctDel], listFails := false }

/-- A pipeline environment whose clone step fails. -/
def envCloneFail : PipelineEnv :=
  { ensureDirFails := false, cloneFails := true, buildFails := false,
    runFails := false, runResult := ctAlpha, saveFails := false }

/-! ### Claim theorems -/

/-- After `delete_container_from_db db cid`, the id `cid` is no longer found by
`is_container_in_db`. -/
theorem not_in_db_after_delete (db : List LedgerRow) (cid : String) :
    is_container_in_db (delete_container_from_db db cid) cid = false := by
  simp only [is_container_in_db, delete_container_from_db, List.any_filter]
  simp [List.any_eq_true]

/-- C1: `clone_and_run_container` inserts a ledger record only after the
repository fetch, the image build and the container run have all succeeded; if
any of those steps raises, the call surfaces an error and the ledger is left
unchanged, so no ledger entry exists for a container that was not fully
created. -/
theorem claim_c1 (env : PipelineEnv) (db : List LedgerRow) (url dir : String) :
    ((env.cloneFails = true ∨ env.buildFails = true ∨ env.runFails = true) →
      (clone_and_run_container env db url dir).1 = .error .dockerAPIException ∧
      (clone_and_run_container env db url dir).2 = db) ∧
    ((clone_and_run_container env db url dir).2 ≠ db →
      env.ensureDirFails = false ∧ env.cloneFails = false ∧ env.buildFails = false ∧
      env.runFails = false ∧ (clone_and_run_container env db url dir).1 = .ok ()) ∧
    ((clone_and_run_container env db url dir).1 = .ok () →
      (clone_and_run_container env db url dir).2 =
        db ++ [{ id := env.runResult.id, name := env.runResult.name,
                 image := buildImageTag url }]) := by
  cases hE : env.ensureDirFails <;> cases hC : env.cloneFails <;>
    cases hB : env.buildFails <;> cases hR : env.runFails <;> cases hS : env.saveFails <;>
    simp_all [clone_and_run_container, build_container, save_container_to_db,
      buildImageTag, repoDir, derivedName]

/-- Witness for C1 at a concrete failing clone step. -/
theorem claim_c1_witness :
    (clone_and_run_container envCloneFail dbW "https://example.com/o/r.git" "").1 =
      Except.error DomErr.dockerAPIException ∧
    (clone_and_run_container envCloneFail dbW "https://example.com/o/r.git" "").2 = dbW :=
  (claim_c1 envCloneFail dbW "https://example.com/o/r.git" "").1 (Or.inl rfl)

/-- C2: `delete_container` removes the ledger entry only as the last step after
a successful runtime removal; a failed `stop` on a running container aborts
with a `DockerAPIException` leaving the ledger untouched; and a second
`delete(id, force=true)` after a successful one fails with
`ContainerNotFoundException` from the ledger check. -/
theorem claim_c2 (db : List LedgerRow) (rt : Runtime) (cid : String) (force : Bool) :
    ((delete_container db rt cid force).2 ≠ db →
      (delete_container db rt cid force).1 = .ok () ∧
      ∃ c, get_container_by_id rt cid = some c ∧ c.removeFails = false) ∧
    (∀ c, get_container_by_id rt cid = some c → c.status = "running" →
      c.stopFails = true → is_container_in_db db cid = true →
      (delete_container db rt cid force).1 = .error .dockerAPIException ∧
      (delete_container db rt cid force).2 = db) ∧
    ((delete_container db rt cid force).1 = .ok () →
      is_container_in_db (delete_container db rt cid force).2 cid = false ∧
      (delete_container (delete_container db rt cid force).2 rt cid true).1 =
        .error .containerNotFound) := by
  cases hdb : is_container_in_db db cid with
  | false => simp [delete_container, hdb]
  | true =>
    cases hlk : get_container_by_id rt cid with
    | none => simp [delete_container, hdb, hlk]
    | some c =>
      cases hst : c.status == "running" <;> cases hsf : c.stopFails <;>
        cases hrf : c.removeFails <;>
        simp_all [delete_container, not_in_db_after_delete]

/-- Witness for C2: a clean delete leaves the id out of the ledger and a second
forced delete fails with `ContainerNotFoundException`. -/
theorem claim_c2_witness :
    is_container_in_db (delete_container dbDel rtDel "del1" true).2 "del1" = false ∧
    (delete_container (delete_container dbDel rtDel "del1" true).2 rtDel "del1" true).1 =
      Except.error DomErr.containerNotFound :=
  (claim_c2 dbDel rtDel "del1" true).2.2 rfl

/-- C3 (amended): `get_container_stats` performs no ledger check at all — it
computes stats for any id the runtime lookup finds, regardless of ledger
membership — and when the runtime lookup does not find the container, the
internally raised `ContainerNotFoundException` is swallowed by the blanket
`except Exception` handler and surfaces as `DockerAPIException`, not as
`ContainerNotFoundException`. -/
theorem claim_c3_amended (rt : Runtime) (cid : String) :
    (get_container_by_id rt cid = none →
      get_container_stats rt cid = .error .dockerAPIException) ∧
    (∀ c, get_container_by_id rt cid = some c → c.statsFails = false →
      0 < c.rawStats.system_cpu_usage →
      get_container_stats rt cid =
        .ok { cpu_usage_percent :=
                pyRound2 (((c.rawStats.cpu_total_usage : ℚ) /
                  (c.rawStats.system_cpu_usage : ℚ)) * 100),
              memory_usage := format_memory ((c.rawStats.memory_usage : ℕ) : ℚ),
              memory_limit := format_memory ((c.rawStats.memory_limit : ℕ) : ℚ),
              network_io := network_io_value c.rawStats.networks }) := by
  constructor
  · intro h
    simp [get_container_stats, h]
  · intro c hc hs hpos
    simp [get_container_stats, hc, hs, cpu_percentage_value, hpos, pyRoundCpu]

/-- Counterexample for C3 as stated: with an empty ledger, stats for `alpha`
are still computed and returned (no `ContainerNotFoundException`), and a
runtime miss surfaces as `DockerAPIException`, not `ContainerNotFoundException`. -/
theorem claim_c3_cex :
    is_container_in_db dbEmpty "alpha" = false ∧
    (∃ s, get_container_stats rtW "alpha" = .ok s) ∧
    get_container_stats rtW "ghost" = .error .dockerAPIException ∧
    DomErr.dockerAPIException ≠ DomErr.containerNotFound :=
  ⟨rfl, ⟨_, rfl⟩, rfl, by decide⟩

/-- Witness for C3 (amended) at a concrete runtime miss. -/
theorem claim_c3_witness :
    get_container_stats rtW "ghost" = Except.error DomErr.dockerAPIException :=
  (claim_c3_amended rtW "ghost").1 rfl

/-- C4 (amended): `start_container` and `stop_container` fail with
`ContainerNotFoundException` on a ledger miss or a runtime miss (ledger checked
first) and wrap a failed runtime transition into `DockerAPIException`;
`restart_container` instead raises a plain `Exception` on a ledger miss,
`ContainerNotFoundException` on a runtime miss, and propagates a failed
transition unwrapped. -/
theorem claim_c4_amended (db : List LedgerRow) (rt : Runtime) (cid : String) :
    (is_container_in_db db cid = false →
      start_container db rt cid = .error .containerNotFound ∧
      stop_container db rt cid = .error .containerNotFound ∧
      restart_container db rt cid = .error .bareException) ∧
    (is_container_in_db db cid = true → get_container_by_id rt cid = none →
      start_container db rt cid = .error .containerNotFound ∧
      stop_container db rt cid = .error .containerNotFound ∧
      restart_container db rt cid = .error .containerNotFound) ∧
    (∀ c, is_container_in_db db cid = true → get_container_by_id rt cid = some c →
      (start_container db rt cid =
        if c.startFails then .error .dockerAPIException else .ok ()) ∧
      (stop_container db rt cid =
        if c.stopFails then .error .dockerAPIException else .ok ()) ∧
      (restart_container db rt cid =
        if c.restartFails then .error .rawDockerError else .ok ())) := by
  refine ⟨?_, ?_, ?_⟩ <;> intros <;>
    simp_all [start_container, stop_container, restart_container]

/-- Counterexample for C4 as stated: a ledger miss makes `restart_container`
raise a plain `Exception` (not `ContainerNotFoundException`), and a failed
restart transition escapes unwrapped (not as `DockerAPIException`). -/
theorem claim_c4_cex :
    restart_container dbEmpty rtR "rbad" = Except.error DomErr.bareException ∧
    DomErr.bareException ≠ DomErr.containerNotFound ∧
    restart_container dbR rtR "rbad" = Except.error DomErr.rawDockerError ∧
    DomErr.rawDockerError ≠ DomErr.dockerAPIException :=
  ⟨rfl, by decide, rfl, by decide⟩

/-- Witness for C4 (amended) at a concrete container. -/
theorem claim_c4_witness :
    start_container dbR rtR "rbad" = Except.ok () ∧
    restart_container dbR rtR "rbad" = Except.error DomErr.rawDockerError := by
  have h := (claim_c4_amended dbR rtR "rbad").2.2 ctRestartBad rfl rfl
  exact ⟨h.1.trans (by rfl), h.2.2.trans (by rfl)⟩

/-- C5: the code contradicts the documented sentinel behaviour — with a zero
host CPU denominator, `cpu_percentage` is bound to the sentinel *string* and
`round(cpu_percentage, 2)` then raises `TypeError`, which the blanket handler
re-raises as `DockerAPIException`, so `get_container_stats` errors instead of
returning the sentinel. -/
theorem claim_c5_bug :
    get_container_by_id rtZ "zed" = some ctZed ∧
    ctZed.rawStats.system_cpu_usage = 0 ∧
    get_container_stats rtZ "zed" = Except.error DomErr.dockerAPIException :=
  ⟨rfl, rfl, rfl⟩

/-- C6: `RefreshToken.__call__` rejects any validated token without the
`refresh` kind marker, fails with the user-not-found error when the subject no
longer exists, and succeeds only when the token validates with kind `refresh`
and an existing subject — in which case it returns exactly the freshly issued
access token for that subject. -/
theorem claim_c6 (users : List String) (now m : ℕ) (d : DecodeResult) :
    (∀ p, d = .valid p → p.type ≠ some "refresh" →
      refresh_token_call users now m d = .error ⟨401, "Invalid or expired refresh token"⟩) ∧
    (∀ p u, d = .valid p → p.type = some "refresh" → p.sub = some u → u ≠ "" →
      users.contains u = false →
      refresh_token_call users now m d = .error ⟨401, "User not found"⟩) ∧
    (∀ t, refresh_token_call users now m d = .ok t →
      ∃ p u, d = .valid p ∧ p.type = some "refresh" ∧ p.sub = some u ∧ u ≠ "" ∧
        users.contains u = true ∧
        t = create_token now u "access" (some (tdMinutes m)) ∧
        t.sub = some u ∧ t.type = none) := by
  refine ⟨?_, ?_, ?_⟩
  · rintro p rfl hty
    have hb : (p.type != some "refresh") = true := bne_iff_ne.mpr hty
    simp [refresh_token_call, validate_token, hb]
  · rintro p u rfl hty hsub hne husers
    have hb : (u == "") = false := beq_eq_false_iff_ne.mpr hne
    have hmem : u ∉ users := by simpa using husers
    simp [refresh_token_call, validate_token, hty, hsub, hb, hmem]
  · intro t h
    cases d with
    | expired => simp [refresh_token_call, validate_token] at h
    | invalid => simp [refresh_token_call, validate_token] at h
    | valid p =>
      by_cases hty : p.type = some "refresh"
      · cases hsub : p.sub with
        | none => simp [refresh_token_call, validate_token, hty, hsub] at h
        | some u =>
          by_cases hu : u = ""
          · simp [refresh_token_call, validate_token, hty, hsub, hu] at h
          · have hb : (u == "") = false := beq_eq_false_iff_ne.mpr hu
            cases hc : users.contains u with
            | false =>
              have hmem : u ∉ users := by simpa using hc
              simp [refresh_token_call, validate_token, hty, hsub, hb, hmem] at h
            | true =>
              have hmem : u ∈ users := by simpa using hc
              have hval : refresh_token_call users now m (.valid p) =
                  .ok (create_token now u "access" (some (tdMinutes m))) := by
                simp [refresh_token_call, validate_token, hty, hsub, hb, hmem]
              rw [hval] at h
              injection h with h
              refine ⟨p, u, rfl, hty, hsub, hu, hc, h.symm, ?_, ?_⟩
              · rw [← h]; rfl
              · rw [← h]; rfl
      · have hb : (p.type != some "refresh") = true := bne_iff_ne.mpr hty
        simp [refresh_token_call, validate_token, hb] at h

/-- Witness for C6: refreshing a refresh-kind token whose subject was deleted
fails with the user-not-found error. -/
theorem claim_c6_witness :
    refresh_token_call ["bob"] 1000 15
        (.valid { sub := some "alice", type := some "refresh", exp := 0 }) =
      Except.error { status := 401, detail := "User not found" } :=
  (claim_c6 ["bob"] 1000 15 _).2.1 { sub := some "alice", type := some "refresh", exp := 0 }
    "alice" rfl rfl rfl (by decide) (by decide)

/-- C7: `list_containers` returns exactly the runtime containers whose ids are
in the ledger, each as the snapshot built from the runtime-reported name,
status and first image tag; runtime containers outside the ledger are silently
dropped without an error. -/
theorem claim_c7 (db : List LedgerRow) (rt : Runtime) (h : rt.listFails = false) :
    list_containers db rt =
      .ok ((rt.containers.filter fun c => is_container_in_db db c.id).map snapshotOf) := by
  have loop : ∀ l : List RTContainer,
      listLoop db l = (l.filter fun c => is_container_in_db db c.id).map snapshotOf := by
    intro l
    induction l with
    | nil => rfl
    | cons c cs ih =>
      by_cases hc : is_container_in_db db c.id <;>
        simp [listLoop, List.filter_cons, hc, ih]
  simp [list_containers, h, loop]

/-- Witness for C7: the unmanaged container `gamma` is dropped and the managed
container `alpha` is reported as its runtime snapshot. -/
theorem claim_c7_witness :
    list_containers dbW rtW =
      Except.ok ((rtW.containers.filter fun c => is_container_in_db dbW c.id).map snapshotOf) ∧
    (rtW.containers.filter fun c => is_container_in_db dbW c.id).map snapshotOf =
      [snapshotOf ctAlpha] :=
  ⟨claim_c7 dbW rtW rfl, by decide⟩

/-- C8: with no explicit lifetime, an access token expires 15 minutes and a
refresh token 7 days after `now`, both stored as the absolute `exp` timestamp;
the refresh payload carries `type = "refresh"` while the access payload has no
kind field. -/
theorem claim_c8 (now : ℕ) (sub : String) :
    create_token now sub "access" none =
      { sub := some sub, type := none, exp := now + 15 * 60 } ∧
    create_token now sub "refresh" none =
      { sub := some sub, type := some "refresh", exp := now + 7 * 24 * 60 * 60 } :=
  ⟨rfl, rfl⟩

/-- Spec-side formatter, written from the spec's words: render the value with
two decimal places under the first unit among B, KB, MB, GB, TB for which the
value scaled by the matching power of 1024 falls below 1024; no unit qualifies
from `1024 ^ 5` upward. -/
def specScaledUnit (v : ℚ) : Option (ℚ × String) :=
  if v < 1024 then some (pyRound2 v, "B")
  else if v < 1024 ^ 2 then some (pyRound2 (v / 1024), "KB")
  else if v < 1024 ^ 3 then some (pyRound2 (v / 1024 ^ 2), "MB")
  else if v < 1024 ^ 4 then some (pyRound2 (v / 1024 ^ 3), "GB")
  else if v < 1024 ^ 5 then some (pyRound2 (v / 1024 ^ 4), "TB")
  else none

/-- The loop of `format_memory` agrees with the spec-side first-qualifying-unit
formatter on every rational input. -/
theorem format_memory_eq_spec (v : ℚ) : format_memory v = specScaledUnit v := by
  have i2 : (v / 1024 < 1024) ↔ (v < 1024 ^ 2) := by
    rw [div_lt_iff₀ (by norm_num : (0:ℚ) < 1024)]; norm_num
  have i3 : (v / 1024 / 1024 < 1024) ↔ (v < 1024 ^ 3) := by
    rw [div_div, div_lt_iff₀ (by norm_num : (0:ℚ) < 1024 * 1024)]; norm_num
  have i4 : (v / 1024 / 1024 / 1024 < 1024) ↔ (v < 1024 ^ 4) := by
    rw [div_div, div_div, div_lt_iff₀ (by norm_num : (0:ℚ) < 1024 * (1024 * 1024))]
    norm_num
  have i5 : (v / 1024 / 1024 / 1024 / 1024 < 1024) ↔ (v < 1024 ^ 5) := by
    rw [div_div, div_div, div_div,
      div_lt_iff₀ (by norm_num : (0:ℚ) < 1024 * (1024 * (1024 * 1024)))]
    norm_num
  have d2 : v / 1024 / 1024 = v / 1024 ^ 2 := by rw [div_div]; norm_num
  have d3 : v / 1024 / 1024 / 1024 = v / 1024 ^ 3 := by rw [div_div, div_div]; norm_num
  have d4 : v / 1024 / 1024 / 1024 / 1024 = v / 1024 ^ 4 := by
    rw [div_div, div_div, div_div]; norm_num
  by_cases c1 : v < 1024
  · simp [format_memory, format_scale, specScaledUnit, c1]
  · by_cases c2 : v < 1024 ^ 2
    · have l2 : v / 1024 < 1024 := i2.mpr c2
      simp [format_memory, format_scale, specScaledUnit, c1, c2, l2]
    · have nl2 : ¬ (v / 1024 < 1024) := fun hh => c2 (i2.mp hh)
      by_cases c3 : v < 1024 ^ 3
      · have l3 : v / 1024 / 1024 < 1024 := i3.mpr c3
        simp [format_memory, format_scale, specScaledUnit, c1, c2, c3, nl2, l3]
        rw [d2]
      · have nl3 : ¬ (v / 1024 / 1024 < 1024) := fun hh => c3 (i3.mp hh)
        by_cases c4 : v < 1024 ^ 4
        · have l4 : v / 1024 / 1024 / 1024 < 1024 := i4.mpr c4
          simp [format_memory, format_scale, specScaledUnit, c1, c2, c3, c4, nl2, nl3, l4]
          rw [d3]
        · have nl4 : ¬ (v / 1024 / 1024 / 1024 < 1024) := fun hh => c4 (i4.mp hh)
          by_cases c5 : v < 1024 ^ 5
          · have l5 : v / 1024 / 1024 / 1024 / 1024 < 1024 := i5.mpr c5
            simp [format_memory, format_scale, specScaledUnit, c1, c2, c3, c4, c5,
              nl2, nl3, nl4, l5]
            rw [d4]
          · have nl5 : ¬ (v / 1024 / 1024 / 1024 / 1024 < 1024) := fun hh => c5 (i5.mp hh)
            simp [format_memory, format_scale, specScaledUnit, c1, c2, c3, c4, c5,
              nl2, nl3, nl4, nl5]

/-- C9 (amended): for byte counts below `1024 ^ 5` the formatting helpers
render two decimal places under the first unit among B, KB, MB, GB, TB for
which the scaled value falls below 1024, but from `1024 ^ 5` bytes upward both
helpers fall off the unit loop and return Python `None`; the network byte and
packet figures are the sums of the per-interface counters. -/
theorem claim_c9_amended :
    (∀ v : ℚ, format_memory v = specScaledUnit v) ∧
    (∀ v : ℚ, format_bytes v = specScaledUnit v) ∧
    (∀ ns : List NetIface,
      network_io_value ns =
        { received :=
            { bytes := format_bytes (((ns.map fun i => i.rx_bytes).sum : ℕ) : ℚ),
              packets := (ns.map fun i => i.rx_packets).sum },
          transmitted :=
            { bytes := format_bytes (((ns.map fun i => i.tx_bytes).sum : ℕ) : ℚ),
              packets := (ns.map fun i => i.tx_packets).sum } }) := by
  have hsum : ∀ l : List ℕ, pySum l = l.sum := fun l => List.sum_eq_foldl.symm
  refine ⟨format_memory_eq_spec, format_memory_eq_spec, ?_⟩
  intro ns
  simp [network_io_value, hsum]

/-- Counterexample for C9 as stated: at `1024 ^ 5` raw bytes no unit among
B..TB brings the scaled value below 1024 (even under TB the scaled value is
1024), and the helper returns `None` instead of a rendered value. -/
theorem claim_c9_cex :
    format_memory ((1024 : ℚ) ^ 5) = none ∧
    ¬ ((1024 : ℚ) ^ 5 / 1024 ^ 4 < 1024) := by
  constructor
  · norm_num [format_memory, format_scale]
  · norm_num

/-- Lists all of whose elements satisfy a predicate pass through `takeWhile`
unchanged, with the predicate continuing into the tail. -/
theorem takeWhile_append_all {α : Type} (p : α → Bool) (a b : List α)
    (h : ∀ x ∈ a, p x = true) :
    (a ++ b).takeWhile p = a ++ b.takeWhile p := by
  induction a with
  | nil => simp
  | cons x xs ih =>
    have hx : p x = true := h x (by simp)
    simp only [List.cons_append, List.takeWhile_cons, hx, if_true]
    exact congrArg (x :: ·) (ih fun y hy => h y (by simp [hy]))

/-- No character of `basename s` is a slash. -/
theorem basename_no_slash (s : String) : ∀ c ∈ (basename s).data, (c != '/') = true := by
  intro c hc
  have hc' : c ∈ (s.data.reverse.takeWhile fun x => x != '/').reverse := hc
  have hc2 : c ∈ s.data.reverse.takeWhile fun x => x != '/' := List.mem_reverse.mp hc'
  exact @List.mem_takeWhile_imp Char (fun x => x != '/') s.data.reverse c hc2

/-- Prefixing the fixed `./repos/` directory and taking `os.path.basename`
recovers a slash-free name. -/
theorem basename_repos_append (n : String) (h : ∀ c ∈ n.data, (c != '/') = true) :
    basename ("./repos/" ++ n) = n := by
  show String.mk ((("./repos/" ++ n).data.reverse.takeWhile fun c => c != '/').reverse) = n
  rw [String.data_append, List.reverse_append,
    show "./repos/".data.reverse = '/' :: ['s', 'o', 'p', 'e', 'r', '/', '.'] from rfl,
    takeWhile_append_all _ _ _ (fun x hx => h x (List.mem_reverse.mp hx)),
    List.takeWhile_cons]
  simp

/-- The image tag `os.path.basename(repo_dir)` equals the name derived from the
repository URL. -/
theorem buildImageTag_eq (url : String) : buildImageTag url = derivedName url :=
  basename_repos_append (derivedName url) (basename_no_slash (stripGit (rstripSlash url)))

/-- C10: the clone directory and the image tag depend only on the derived final
path segment of the repository URL (trailing slashes and the substring `.git`
stripped), so two distinct URLs with the same derived segment share the clone
directory and the image tag. -/
theorem claim_c10 (u1 u2 : String) (hne : u1 ≠ u2)
    (h : derivedName u1 = derivedName u2) :
    repoDir u1 = repoDir u2 ∧ buildImageTag u1 = buildImageTag u2 ∧
    buildImageTag u1 = derivedName u1 := by
  refine ⟨?_, ?_, buildImageTag_eq u1⟩
  · unfold repoDir
    rw [h]
  · rw [buildImageTag_eq, buildImageTag_eq, h]

/-- Witness for C10: two repositories named `tool` under different owners
collide on the clone directory and the image tag. -/
theorem claim_c10_witness :
    repoDir "https://github.com/alice/tool.git" = repoDir "https://github.com/bob/tool" ∧
    buildImageTag "https://github.com/alice/tool.git" =
      buildImageTag "https://github.com/bob/tool" ∧
    buildImageTag "https://github.com/alice/tool.git" =
      derivedName "https://github.com/alice/tool.git" :=
  claim_c10 "https://github.com/alice/tool.git" "https://github.com/bob/tool"
    (by decide) (by decide)

end DockerRed
